import Mathlib

/-!
Verification of the MEGAETH 2048 on-chain game against its design
specification.

The repository contains the stateful ledger contract (MEGAETH2048.sol) and
frontend glue.  The pure board library it links against (LibBoard.sol:
tile codec, move simulator, spawn oracle, transition validator) is not part
of the available sources, so those components are modelled from the spec
(sections 4.1 to 4.4); the ledger itself is embedded directly from
MEGAETH2048.sol.

Machine integers are modelled as Nat with explicit bounds or reductions
where the source performs narrowing casts; keccak256 is a parameter of the
ledger (any function from byte strings to Nat), since no claim depends on
the hash's internals, only on which bytes each call site feeds to it.
-/

/-- Modelled from the spec (section 3, "Move"): an enumerated direction.
The missing LibBoard.sol fixes the uint8 encoding; we fix the canonical
scheme 0 = up, 1 = down, 2 = left, 3 = right, and every other byte value
is invalid. -/
inductive Move where
  | up
  | down
  | left
  | right
deriving DecidableEq

/-- Modelled from the spec: decoder from the contract's uint8 move value to
a direction; values outside the enumeration are invalid (spec section 3:
"No other values are valid"). -/
def decodeMove (mv : Nat) : Option Move :=
  match mv with
  | 0 => some .up
  | 1 => some .down
  | 2 => some .left
  | 3 => some .right
  | _ => none

/-- Modelled from the spec (section 3, "Board"): a 4x4 grid of tile
exponents, row-major, index 0..15.  The packed integer form is produced by
`fromGrid` / consumed by `toGrid`. -/
structure Grid where
  t0 : Nat
  t1 : Nat
  t2 : Nat
  t3 : Nat
  t4 : Nat
  t5 : Nat
  t6 : Nat
  t7 : Nat
  t8 : Nat
  t9 : Nat
  t10 : Nat
  t11 : Nat
  t12 : Nat
  t13 : Nat
  t14 : Nat
  t15 : Nat
deriving DecidableEq

/-- Modelled from the spec (section 4.1, BoardCodec): tile `i` of a packed
128-bit board lives in the 8-bit slot at bit offset `8 * i`
(little-endian slot order, 8 bits per tile as in the original). -/
def toGrid (b : Nat) : Grid :=
  ⟨b % 256, b / 256 % 256, b / 256 ^ 2 % 256, b / 256 ^ 3 % 256,
   b / 256 ^ 4 % 256, b / 256 ^ 5 % 256, b / 256 ^ 6 % 256, b / 256 ^ 7 % 256,
   b / 256 ^ 8 % 256, b / 256 ^ 9 % 256, b / 256 ^ 10 % 256, b / 256 ^ 11 % 256,
   b / 256 ^ 12 % 256, b / 256 ^ 13 % 256, b / 256 ^ 14 % 256, b / 256 ^ 15 % 256⟩

/-- Modelled from the spec (section 4.1): inverse packing of a grid into a
single integer, tile `i` at bit offset `8 * i`. -/
def fromGrid (g : Grid) : Nat :=
  g.t0 + g.t1 * 256 + g.t2 * 256 ^ 2 + g.t3 * 256 ^ 3 +
  g.t4 * 256 ^ 4 + g.t5 * 256 ^ 5 + g.t6 * 256 ^ 6 + g.t7 * 256 ^ 7 +
  g.t8 * 256 ^ 8 + g.t9 * 256 ^ 9 + g.t10 * 256 ^ 10 + g.t11 * 256 ^ 11 +
  g.t12 * 256 ^ 12 + g.t13 * 256 ^ 13 + g.t14 * 256 ^ 14 + g.t15 * 256 ^ 15

/-- Modelled from the spec (section 4.1): read the exponent at a row-major
index; indexes at or above 16 read as zero (never used by the simulator). -/
def getTileG (g : Grid) (i : Nat) : Nat :=
  match i with
  | 0 => g.t0
  | 1 => g.t1
  | 2 => g.t2
  | 3 => g.t3
  | 4 => g.t4
  | 5 => g.t5
  | 6 => g.t6
  | 7 => g.t7
  | 8 => g.t8
  | 9 => g.t9
  | 10 => g.t10
  | 11 => g.t11
  | 12 => g.t12
  | 13 => g.t13
  | 14 => g.t14
  | 15 => g.t15
  | _ => 0

/-- Modelled from the spec (section 4.1, setTile): replace the exponent at a
row-major index. -/
def setTileG (g : Grid) (i v : Nat) : Grid :=
  match i with
  | 0 => { g with t0 := v }
  | 1 => { g with t1 := v }
  | 2 => { g with t2 := v }
  | 3 => { g with t3 := v }
  | 4 => { g with t4 := v }
  | 5 => { g with t5 := v }
  | 6 => { g with t6 := v }
  | 7 => { g with t7 := v }
  | 8 => { g with t8 := v }
  | 9 => { g with t9 := v }
  | 10 => { g with t10 := v }
  | 11 => { g with t11 := v }
  | 12 => { g with t12 := v }
  | 13 => { g with t13 := v }
  | 14 => { g with t14 := v }
  | 15 => { g with t15 := v }
  | _ => g

/-- Modelled from the spec (section 4.2, step 2): merge adjacent equal
exponents of a compacted line once, leading edge first; a freshly merged
tile never merges again in the same move. -/
def mergeLine : List Nat → List Nat
  | [] => []
  | [a] => [a]
  | a :: b :: t => if a = b then (a + 1) :: mergeLine t else a :: mergeLine (b :: t)

/-- Modelled from the spec (section 4.2, steps 1 to 3): slide one line of
four cells toward the leading edge (which is the head of the list): drop
empties, merge once, pad the tail with empties back to length 4. -/
def slideLine (l : List Nat) : List Nat :=
  (mergeLine (l.filter (fun x => x ≠ 0))) ++
    List.replicate (4 - (mergeLine (l.filter (fun x => x ≠ 0))).length) 0

/-- Modelled from the spec (section 4.2): `slideLine` on an explicit
four-cell line, returned as a quadruple, leading edge first. -/
def sl (a b c d : Nat) : Nat × Nat × Nat × Nat :=
  ((slideLine [a, b, c, d]).getD 0 0, (slideLine [a, b, c, d]).getD 1 0,
   (slideLine [a, b, c, d]).getD 2 0, (slideLine [a, b, c, d]).getD 3 0)

/-- Modelled from the spec (section 4.2): shift and merge every row toward
the left edge. -/
def shiftLeft (g : Grid) : Grid :=
  Grid.mk
    (sl g.t0 g.t1 g.t2 g.t3).1 (sl g.t0 g.t1 g.t2 g.t3).2.1
    (sl g.t0 g.t1 g.t2 g.t3).2.2.1 (sl g.t0 g.t1 g.t2 g.t3).2.2.2
    (sl g.t4 g.t5 g.t6 g.t7).1 (sl g.t4 g.t5 g.t6 g.t7).2.1
    (sl g.t4 g.t5 g.t6 g.t7).2.2.1 (sl g.t4 g.t5 g.t6 g.t7).2.2.2
    (sl g.t8 g.t9 g.t10 g.t11).1 (sl g.t8 g.t9 g.t10 g.t11).2.1
    (sl g.t8 g.t9 g.t10 g.t11).2.2.1 (sl g.t8 g.t9 g.t10 g.t11).2.2.2
    (sl g.t12 g.t13 g.t14 g.t15).1 (sl g.t12 g.t13 g.t14 g.t15).2.1
    (sl g.t12 g.t13 g.t14 g.t15).2.2.1 (sl g.t12 g.t13 g.t14 g.t15).2.2.2

/-- Modelled from the spec (section 4.2): shift and merge every row toward
the right edge (the line is read right to left, so component 1 of `sl`
lands on the rightmost cell). -/
def shiftRight (g : Grid) : Grid :=
  Grid.mk
    (sl g.t3 g.t2 g.t1 g.t0).2.2.2 (sl g.t3 g.t2 g.t1 g.t0).2.2.1
    (sl g.t3 g.t2 g.t1 g.t0).2.1 (sl g.t3 g.t2 g.t1 g.t0).1
    (sl g.t7 g.t6 g.t5 g.t4).2.2.2 (sl g.t7 g.t6 g.t5 g.t4).2.2.1
    (sl g.t7 g.t6 g.t5 g.t4).2.1 (sl g.t7 g.t6 g.t5 g.t4).1
    (sl g.t11 g.t10 g.t9 g.t8).2.2.2 (sl g.t11 g.t10 g.t9 g.t8).2.2.1
    (sl g.t11 g.t10 g.t9 g.t8).2.1 (sl g.t11 g.t10 g.t9 g.t8).1
    (sl g.t15 g.t14 g.t13 g.t12).2.2.2 (sl g.t15 g.t14 g.t13 g.t12).2.2.1
    (sl g.t15 g.t14 g.t13 g.t12).2.1 (sl g.t15 g.t14 g.t13 g.t12).1

/-- Modelled from the spec (section 4.2): shift and merge every column
toward the top edge. -/
def shiftUp (g : Grid) : Grid :=
  Grid.mk
    (sl g.t0 g.t4 g.t8 g.t12).1 (sl g.t1 g.t5 g.t9 g.t13).1
    (sl g.t2 g.t6 g.t10 g.t14).1 (sl g.t3 g.t7 g.t11 g.t15).1
    (sl g.t0 g.t4 g.t8 g.t12).2.1 (sl g.t1 g.t5 g.t9 g.t13).2.1
    (sl g.t2 g.t6 g.t10 g.t14).2.1 (sl g.t3 g.t7 g.t11 g.t15).2.1
    (sl g.t0 g.t4 g.t8 g.t12).2.2.1 (sl g.t1 g.t5 g.t9 g.t13).2.2.1
    (sl g.t2 g.t6 g.t10 g.t14).2.2.1 (sl g.t3 g.t7 g.t11 g.t15).2.2.1
    (sl g.t0 g.t4 g.t8 g.t12).2.2.2 (sl g.t1 g.t5 g.t9 g.t13).2.2.2
    (sl g.t2 g.t6 g.t10 g.t14).2.2.2 (sl g.t3 g.t7 g.t11 g.t15).2.2.2

/-- Modelled from the spec (section 4.2): shift and merge every column
toward the bottom edge (each column is read bottom to top). -/
def shiftDown (g : Grid) : Grid :=
  Grid.mk
    (sl g.t12 g.t8 g.t4 g.t0).2.2.2 (sl g.t13 g.t9 g.t5 g.t1).2.2.2
    (sl g.t14 g.t10 g.t6 g.t2).2.2.2 (sl g.t15 g.t11 g.t7 g.t3).2.2.2
    (sl g.t12 g.t8 g.t4 g.t0).2.2.1 (sl g.t13 g.t9 g.t5 g.t1).2.2.1
    (sl g.t14 g.t10 g.t6 g.t2).2.2.1 (sl g.t15 g.t11 g.t7 g.t3).2.2.1
    (sl g.t12 g.t8 g.t4 g.t0).2.1 (sl g.t13 g.t9 g.t5 g.t1).2.1
    (sl g.t14 g.t10 g.t6 g.t2).2.1 (sl g.t15 g.t11 g.t7 g.t3).2.1
    (sl g.t12 g.t8 g.t4 g.t0).1 (sl g.t13 g.t9 g.t5 g.t1).1
    (sl g.t14 g.t10 g.t6 g.t2).1 (sl g.t15 g.t11 g.t7 g.t3).1

/-- Modelled from the spec (section 4.2): the shift-and-merge phase of a
move, dispatching on direction. -/
def shiftGrid (m : Move) (g : Grid) : Grid :=
  match m with
  | .up => shiftUp g
  | .down => shiftDown g
  | .left => shiftLeft g
  | .right => shiftRight g

/-- Modelled from the spec (section 4.3): the row-major list of empty cell
indexes of a grid. -/
def emptyIdx (g : Grid) : List Nat :=
  (List.range 16).filter (fun i => getTileG g i == 0)

/-- Modelled from the spec (section 4.3, SpawnOracle): deterministically
pick one empty cell via `seed mod numEmptyCells` and a spawned exponent
from a second portion of the seed with the canonical 90/10 split (exponent
2 exactly when `seed / 16 mod 10` is zero, else exponent 1); `none` when
the board has no empty cell. -/
def chooseSpawn (g : Grid) (seed : Nat) : Option (Nat × Nat) :=
  if (emptyIdx g).isEmpty then none
  else
    some ((emptyIdx g).getD (seed % (emptyIdx g).length) 0,
      if seed / 16 % 10 = 0 then 2 else 1)

/-- Modelled from the spec (section 4.4): the unique canonical result of a
move, or `none` when the move is illegal (undecodable direction, a shift
that changes nothing, or no empty cell for the spawn). -/
def canonicalResult (prev mv seed : Nat) : Option Nat :=
  match decodeMove mv with
  | none => none
  | some m =>
    if shiftGrid m (toGrid prev) = toGrid prev then none
    else
      match chooseSpawn (shiftGrid m (toGrid prev)) seed with
      | none => none
      | some (i, e) => some (fromGrid (setTileG (shiftGrid m (toGrid prev)) i e))

/-- Modelled from the spec (section 4.4, TransitionValidator): recompute the
canonical result and compare bit for bit with the claimed result. -/
def validateTransformation (prev mv claimed seed : Nat) : Bool :=
  match canonicalResult prev mv seed with
  | none => false
  | some r => claimed == r

/-- Modelled from the spec (section 4.4, validateStartPosition): a fresh
board has exactly two non-empty tiles, each of exponent 1 or 2, all other
cells empty. -/
def validateStartPosition (b : Nat) : Bool :=
  (((List.range 16).map (getTileG (toGrid b))).filter (fun x => x ≠ 0)).length == 2 &&
  ((List.range 16).map (getTileG (toGrid b))).all (fun x => x == 0 || x == 1 || x == 2)

/-! ## The ledger contract (embedded from MEGAETH2048.sol) -/

/-- The `struct GameState` of MEGAETH2048.sol: `uint8 move`, `uint120 nextMove`,
`uint128 board`. -/
structure GameState where
  move : Nat
  nextMove : Nat
  board : Nat
deriving DecidableEq

/-- The default value a Solidity mapping yields for an untouched key:
the all-zero `GameState`. -/
def defaultGameState : GameState := ⟨0, 0, 0⟩

/-- The contract's storage: the three mappings of MEGAETH2048.sol, each
modelled as a total function with the Solidity zero default. -/
structure ContractState where
  state : Nat → GameState
  gameHashOf : Nat → Nat
  moveConfirmed : Nat → Nat → Bool

/-- A contract storage with every mapping at its default value. -/
def emptyContractState : ContractState :=
  ⟨fun _ => defaultGameState, fun _ => 0, fun _ _ => false⟩

/-- The revert conditions of MEGAETH2048.sol: the four revert strings of its
require statements, plus the Solidity 0.8 checked-arithmetic panic (the
`nextMove + 1` increment on a uint120). -/
inductive ContractError where
  | GameIdUsed
  | GamePlayed
  | GameBoardInvalid
  | GamePlayerInvalid
  | Overflow
deriving DecidableEq

/-- The events of MEGAETH2048.sol, in the argument order of their
declarations (the last argument of MoveConfirmedEv is `block.number`). -/
inductive Event where
  | NewGame (player id board : Nat)
  | NewMove (player id move result : Nat)
  | MoveConfirmedEv (player id move blockNumber : Nat)
deriving DecidableEq

/-- The `correctGameId` modifier of MEGAETH2048.sol:
`player == address(uint160(uint256(gameId) >> 96))`. -/
def correctGameId (player gameId : Nat) : Bool :=
  player == gameId / 2 ^ 96 % 2 ^ 160

/-- Big-endian byte string of `x` in exactly `w` bytes, as produced by the
EVM for a fixed-width word. -/
def toBytesBE (w x : Nat) : List Nat :=
  (List.range w).map (fun k => x / 256 ^ (w - 1 - k) % 256)

/-- The bytes of `abi.encodePacked(boards)` for a `uint128[4]` argument: array elements
are padded to 32 bytes each under packed encoding. -/
def encodeBoards (b0 b1 b2 b3 : Nat) : List Nat :=
  toBytesBE 32 b0 ++ toBytesBE 32 b1 ++ toBytesBE 32 b2 ++ toBytesBE 32 b3

/-- The bytes of `abi.encodePacked(gameId, moveNumber)` for a bytes32 and a uint256:
the 32 bytes of the identifier followed by the 32 bytes of the number. -/
def encodeGameSeed (gameId moveNumber : Nat) : List Nat :=
  toBytesBE 32 gameId ++ toBytesBE 32 moveNumber

/-- Function `calculateSeed` of MEGAETH2048.sol:
`uint256(keccak256(abi.encodePacked(gameId, moveNumber)))`. -/
def calculateSeed (keccak : List Nat → Nat) (gameId moveNumber : Nat) : Nat :=
  keccak (encodeGameSeed gameId moveNumber)

/-- The seed expression inlined in `play`:
`uint256(keccak256(abi.encodePacked(gameId, uint256(latestState.nextMove))))`. -/
def playSeed (keccak : List Nat → Nat) (s : ContractState) (gameId : Nat) : Nat :=
  keccak (toBytesBE 32 gameId ++ toBytesBE 32 (s.state gameId).nextMove)

/-- The seed expression inlined in the `startGame` loop:
`uint256(keccak256(abi.encodePacked(gameId, i)))` for the uint256 loop
index `i`. -/
def startSeed (keccak : List Nat → Nat) (gameId i : Nat) : Nat :=
  keccak (toBytesBE 32 gameId ++ toBytesBE 32 i)

/-- The storage written by a successful `startGame`: the game hash is bound
to the identifier, opening moves 1 to 3 are confirmed, and the record is
set to `GameState(moves[2], 4, boards[3])`. -/
def startPost (keccak : List Nat → Nat) (s : ContractState)
    (gameId b0 b1 b2 b3 m3 : Nat) : ContractState :=
  { state := fun g => if g = gameId then ⟨m3, 4, b3⟩ else s.state g,
    gameHashOf := fun h =>
      if h = keccak (encodeBoards b0 b1 b2 b3) then gameId else s.gameHashOf h,
    moveConfirmed := fun g n =>
      if g = gameId ∧ 1 ≤ n ∧ n ≤ 3 then true else s.moveConfirmed g n }

/-- Function `startGame` of MEGAETH2048.sol, with its checks in source order:
the `correctGameId` modifier, the zero-board GameIdUsed check, the
GamePlayed opening-hash check, the start-position check, and the three
opening-transition validations with per-move seeds. -/
def startGame (keccak : List Nat → Nat) (blockNum : Nat) (s : ContractState)
    (sender gameId b0 b1 b2 b3 m1 m2 m3 : Nat) :
    Except ContractError (ContractState × List Event) :=
  if correctGameId sender gameId = true then
    if (s.state gameId).board = 0 then
      if s.gameHashOf (keccak (encodeBoards b0 b1 b2 b3)) = 0 then
        if validateStartPosition b0 = true then
          if validateTransformation b0 m1 b1 (startSeed keccak gameId 1) = true then
            if validateTransformation b1 m2 b2 (startSeed keccak gameId 2) = true then
              if validateTransformation b2 m3 b3 (startSeed keccak gameId 3) = true then
                .ok (startPost keccak s gameId b0 b1 b2 b3 m3,
                  [.NewGame sender gameId b3,
                   .MoveConfirmedEv sender gameId 3 blockNum])
              else .error .GameBoardInvalid
            else .error .GameBoardInvalid
          else .error .GameBoardInvalid
        else .error .GameBoardInvalid
      else .error .GamePlayed
    else .error .GameIdUsed
  else .error .GamePlayerInvalid

/-- The storage written by a successful `play`: the record becomes
`GameState(move, nextMove + 1, resultBoard)` and move number
`nextMove` is confirmed. -/
def playPost (s : ContractState) (gameId mv resultBoard : Nat) : ContractState :=
  { s with
    state := fun g =>
      if g = gameId then ⟨mv, (s.state gameId).nextMove + 1, resultBoard⟩
      else s.state g,
    moveConfirmed := fun g n =>
      if g = gameId ∧ n = (s.state gameId).nextMove then true
      else s.moveConfirmed g n }

/-- Function `play` of MEGAETH2048.sol: the `correctGameId` modifier, then the
transition validation against the stored record under the inlined seed;
`latestState.nextMove + 1` is checked uint120 arithmetic, so a result not
below `2 ^ 120` reverts with a panic. -/
def play (keccak : List Nat → Nat) (blockNum : Nat) (s : ContractState)
    (sender gameId mv resultBoard : Nat) :
    Except ContractError (ContractState × List Event) :=
  if correctGameId sender gameId = true then
    if validateTransformation (s.state gameId).board mv resultBoard
        (playSeed keccak s gameId) = true then
      if (s.state gameId).nextMove + 1 < 2 ^ 120 then
        .ok (playPost s gameId mv resultBoard,
          [.NewMove sender gameId mv resultBoard,
           .MoveConfirmedEv sender gameId (s.state gameId).nextMove blockNum])
      else .error .Overflow
    else .error .GameBoardInvalid
  else .error .GamePlayerInvalid

/-- View `nextMove` of MEGAETH2048.sol. -/
def nextMoveView (s : ContractState) (gameId : Nat) : Nat :=
  (s.state gameId).nextMove

/-- View `latestBoard` of MEGAETH2048.sol. -/
def latestBoardView (s : ContractState) (gameId : Nat) : Nat :=
  (s.state gameId).board

/-- View `isMoveConfirmed` of MEGAETH2048.sol. -/
def isMoveConfirmedView (s : ContractState) (gameId moveNumber : Nat) : Bool :=
  s.moveConfirmed gameId moveNumber

/-- Revert semantics of an external call: an error leaves the storage as it
was and emits nothing. -/
def applyResult (s : ContractState)
    (r : Except ContractError (ContractState × List Event)) :
    ContractState × List Event :=
  match r with
  | .ok p => p
  | .error _ => (s, [])

/-- Whether a call result committed (did not revert). -/
def isOkB (r : Except ContractError (ContractState × List Event)) : Bool :=
  match r with
  | .ok _ => true
  | .error _ => false

/-! ## Concrete fixtures used by witnesses -/

/-- A concrete stand-in hash function for closed witnesses (the ledger is
parametric in the hash). -/
def kZero : List Nat → Nat := fun _ => 0

/-- A concrete game identifier whose encoded principal is address 1. -/
def gameC : Nat := 2 ^ 96

/-- A concrete valid start board: exponent 1 at cells 0 and 12. -/
def boardC0 : Nat := 1 + 256 ^ 12

/-- The canonical result of move up on `boardC0` under seed 0:
exponent 2 at cells 0 and 1. -/
def boardC1 : Nat := 514

/-- The canonical result of move left on `boardC1` under seed 0:
exponent 3 at cell 0, exponent 2 at cell 1. -/
def boardC2 : Nat := 515

/-- The canonical result of move down on `boardC2` under seed 0:
exponent 2 at cell 0, exponent 3 at cell 12, exponent 2 at cell 13. -/
def boardC3 : Nat := 2 + 3 * 256 ^ 12 + 2 * 256 ^ 13

/-- The canonical result of move right on `boardC3` under seed 0. -/
def resultC : Nat := 2 + 2 * 256 ^ 3 + 3 * 256 ^ 14 + 2 * 256 ^ 15

/-- The storage after the concrete successful `startGame` below. -/
def stateC1 : ContractState :=
  startPost kZero emptyContractState gameC boardC0 boardC1 boardC2 boardC3 1

/-- The storage after the concrete successful `play` below. -/
def stateC2 : ContractState := playPost stateC1 gameC 3 resultC

/-- A storage state, not reachable through the public entry points, whose
record for `gameC` has a nonzero move counter but a zero board. -/
def ghostState : ContractState :=
  { emptyContractState with
    state := fun g => if g = gameC then ⟨0, 5, 0⟩ else defaultGameState }

/-- The conjunction of every check `startGame` performs, in source order. -/
def startChecks (keccak : List Nat → Nat) (s : ContractState)
    (c g b0 b1 b2 b3 m1 m2 m3 : Nat) : Prop :=
  correctGameId c g = true ∧
  (s.state g).board = 0 ∧
  s.gameHashOf (keccak (encodeBoards b0 b1 b2 b3)) = 0 ∧
  validateStartPosition b0 = true ∧
  validateTransformation b0 m1 b1 (startSeed keccak g 1) = true ∧
  validateTransformation b1 m2 b2 (startSeed keccak g 2) = true ∧
  validateTransformation b2 m3 b3 (startSeed keccak g 3) = true

/-- The conjunction of every check `play` performs, in source order (the
last conjunct is the checked uint120 increment). -/
def playChecks (keccak : List Nat → Nat) (s : ContractState)
    (c g mv rb : Nat) : Prop :=
  correctGameId c g = true ∧
  validateTransformation (s.state g).board mv rb (playSeed keccak s g) = true ∧
  (s.state g).nextMove + 1 < 2 ^ 120

/-- How many events of a list confirm move number `n` of game `g`. -/
def confirmEvCount (evs : List Event) (g n : Nat) : Nat :=
  evs.countP (fun e =>
    match e with
    | .MoveConfirmedEv _ id mvn _ => id == g && mvn == n
    | _ => false)

/-! ## Lemmas about the move simulator -/

theorem mergeLine_length_le : ∀ l : List Nat, (mergeLine l).length ≤ l.length
  | [] => by simp [mergeLine]
  | [_] => by simp [mergeLine]
  | a :: b :: t => by
    by_cases h : a = b
    · have ih := mergeLine_length_le t
      simp only [mergeLine, if_pos h, List.length_cons]
      omega
    · have ih := mergeLine_length_le (b :: t)
      simp only [mergeLine, if_neg h, List.length_cons] at ih ⊢
      omega

theorem mergeLine_eq_of_length :
    ∀ l : List Nat, (mergeLine l).length = l.length → mergeLine l = l
  | [] => by simp [mergeLine]
  | [_] => by simp [mergeLine]
  | a :: b :: t => by
    intro hlen
    by_cases h : a = b
    · exfalso
      have := mergeLine_length_le t
      simp only [mergeLine, if_pos h, List.length_cons] at hlen
      omega
    · simp only [mergeLine, if_neg h, List.length_cons] at hlen ⊢
      rw [mergeLine_eq_of_length (b :: t) (by simp; omega)]

theorem slideLine_length (l : List Nat) (h : l.length = 4) :
    (slideLine l).length = 4 := by
  have hf : (l.filter (fun x => x ≠ 0)).length ≤ 4 := by
    have := l.length_filter_le (fun x => x ≠ 0)
    omega
  have hm := mergeLine_length_le (l.filter (fun x => x ≠ 0))
  simp only [slideLine, List.length_append, List.length_replicate]
  omega

theorem slideLine_zero_mem (l : List Nat) (h4 : l.length = 4)
    (hne : slideLine l ≠ l) : 0 ∈ slideLine l := by
  have hf : (l.filter (fun x => x ≠ 0)).length ≤ 4 := by
    have := l.length_filter_le (fun x => x ≠ 0)
    omega
  have hm := mergeLine_length_le (l.filter (fun x => x ≠ 0))
  by_cases hc : (mergeLine (l.filter (fun x => x ≠ 0))).length = 4
  · exfalso
    have hf4 : (l.filter (fun x => x ≠ 0)).length = 4 := by omega
    have hfl : l.filter (fun x => x ≠ 0) = l :=
      (l.filter_sublist).eq_of_length (by omega)
    have hml : mergeLine (l.filter (fun x => x ≠ 0)) = l.filter (fun x => x ≠ 0) :=
      mergeLine_eq_of_length _ (by omega)
    apply hne
    have e1 : slideLine l = mergeLine (l.filter (fun x => x ≠ 0)) ++
        List.replicate (4 - (mergeLine (l.filter (fun x => x ≠ 0))).length) 0 := rfl
    rw [e1, hml, hfl, h4]
    simp
  · have hrep : 0 < 4 - (mergeLine (l.filter (fun x => x ≠ 0))).length := by omega
    simp only [slideLine, List.mem_append]
    right
    exact List.mem_replicate.2 ⟨by omega, rfl⟩

theorem list_eq_four (l : List Nat) (h : l.length = 4) :
    l = [l.getD 0 0, l.getD 1 0, l.getD 2 0, l.getD 3 0] := by
  rcases l with _ | ⟨a, _ | ⟨b, _ | ⟨c, _ | ⟨d, _ | ⟨e, t⟩⟩⟩⟩⟩ <;>
    simp_all [List.getD]

theorem sl_or (a b c d : Nat) :
    sl a b c d = (a, b, c, d) ∨
      ((sl a b c d).1 = 0 ∨ (sl a b c d).2.1 = 0 ∨
       (sl a b c d).2.2.1 = 0 ∨ (sl a b c d).2.2.2 = 0) := by
  by_cases h : slideLine [a, b, c, d] = [a, b, c, d]
  · left
    simp [sl, h]
  · right
    have hlen : (slideLine [a, b, c, d]).length = 4 :=
      slideLine_length _ (by simp)
    have hmem : 0 ∈ slideLine [a, b, c, d] :=
      slideLine_zero_mem _ (by simp) h
    rw [list_eq_four _ hlen] at hmem
    simp only [List.mem_cons, List.not_mem_nil, or_false] at hmem
    simp only [sl]
    rcases hmem with h0 | h0 | h0 | h0 <;> omega

theorem shiftLeft_zero (g : Grid) (h : shiftLeft g ≠ g) :
    ∃ i, i < 16 ∧ getTileG (shiftLeft g) i = 0 := by
  obtain ⟨t0, t1, t2, t3, t4, t5, t6, t7, t8, t9, t10, t11, t12, t13, t14, t15⟩ := g
  rcases sl_or t0 t1 t2 t3 with h0 | h0
  · rcases sl_or t4 t5 t6 t7 with h1 | h1
    · rcases sl_or t8 t9 t10 t11 with h2 | h2
      · rcases sl_or t12 t13 t14 t15 with h3 | h3
        · exact absurd (by simp [shiftLeft, h0, h1, h2, h3]) h
        · rcases h3 with h3 | h3 | h3 | h3
          exacts [⟨12, by omega, h3⟩, ⟨13, by omega, h3⟩,
            ⟨14, by omega, h3⟩, ⟨15, by omega, h3⟩]
      · rcases h2 with h2 | h2 | h2 | h2
        exacts [⟨8, by omega, h2⟩, ⟨9, by omega, h2⟩,
          ⟨10, by omega, h2⟩, ⟨11, by omega, h2⟩]
    · rcases h1 with h1 | h1 | h1 | h1
      exacts [⟨4, by omega, h1⟩, ⟨5, by omega, h1⟩,
        ⟨6, by omega, h1⟩, ⟨7, by omega, h1⟩]
  · rcases h0 with h0 | h0 | h0 | h0
    exacts [⟨0, by omega, h0⟩, ⟨1, by omega, h0⟩,
      ⟨2, by omega, h0⟩, ⟨3, by omega, h0⟩]

theorem shiftRight_zero (g : Grid) (h : shiftRight g ≠ g) :
    ∃ i, i < 16 ∧ getTileG (shiftRight g) i = 0 := by
  obtain ⟨t0, t1, t2, t3, t4, t5, t6, t7, t8, t9, t10, t11, t12, t13, t14, t15⟩ := g
  rcases sl_or t3 t2 t1 t0 with h0 | h0
  · rcases sl_or t7 t6 t5 t4 with h1 | h1
    · rcases sl_or t11 t10 t9 t8 with h2 | h2
      · rcases sl_or t15 t14 t13 t12 with h3 | h3
        · exact absurd (by simp [shiftRight, h0, h1, h2, h3]) h
        · rcases h3 with h3 | h3 | h3 | h3
          exacts [⟨15, by omega, h3⟩, ⟨14, by omega, h3⟩,
            ⟨13, by omega, h3⟩, ⟨12, by omega, h3⟩]
      · rcases h2 with h2 | h2 | h2 | h2
        exacts [⟨11, by omega, h2⟩, ⟨10, by omega, h2⟩,
          ⟨9, by omega, h2⟩, ⟨8, by omega, h2⟩]
    · rcases h1 with h1 | h1 | h1 | h1
      exacts [⟨7, by omega, h1⟩, ⟨6, by omega, h1⟩,
        ⟨5, by omega, h1⟩, ⟨4, by omega, h1⟩]
  · rcases h0 with h0 | h0 | h0 | h0
    exacts [⟨3, by omega, h0⟩, ⟨2, by omega, h0⟩,
      ⟨1, by omega, h0⟩, ⟨0, by omega, h0⟩]

theorem shiftUp_zero (g : Grid) (h : shiftUp g ≠ g) :
    ∃ i, i < 16 ∧ getTileG (shiftUp g) i = 0 := by
  obtain ⟨t0, t1, t2, t3, t4, t5, t6, t7, t8, t9, t10, t11, t12, t13, t14, t15⟩ := g
  rcases sl_or t0 t4 t8 t12 with h0 | h0
  · rcases sl_or t1 t5 t9 t13 with h1 | h1
    · rcases sl_or t2 t6 t10 t14 with h2 | h2
      · rcases sl_or t3 t7 t11 t15 with h3 | h3
        · exact absurd (by simp [shiftUp, h0, h1, h2, h3]) h
        · rcases h3 with h3 | h3 | h3 | h3
          exacts [⟨3, by omega, h3⟩, ⟨7, by omega, h3⟩,
            ⟨11, by omega, h3⟩, ⟨15, by omega, h3⟩]
      · rcases h2 with h2 | h2 | h2 | h2
        exacts [⟨2, by omega, h2⟩, ⟨6, by omega, h2⟩,
          ⟨10, by omega, h2⟩, ⟨14, by omega, h2⟩]
    · rcases h1 with h1 | h1 | h1 | h1
      exacts [⟨1, by omega, h1⟩, ⟨5, by omega, h1⟩,
        ⟨9, by omega, h1⟩, ⟨13, by omega, h1⟩]
  · rcases h0 with h0 | h0 | h0 | h0
    exacts [⟨0, by omega, h0⟩, ⟨4, by omega, h0⟩,
      ⟨8, by omega, h0⟩, ⟨12, by omega, h0⟩]

theorem shiftDown_zero (g : Grid) (h : shiftDown g ≠ g) :
    ∃ i, i < 16 ∧ getTileG (shiftDown g) i = 0 := by
  obtain ⟨t0, t1, t2, t3, t4, t5, t6, t7, t8, t9, t10, t11, t12, t13, t14, t15⟩ := g
  rcases sl_or t12 t8 t4 t0 with h0 | h0
  · rcases sl_or t13 t9 t5 t1 with h1 | h1
    · rcases sl_or t14 t10 t6 t2 with h2 | h2
      · rcases sl_or t15 t11 t7 t3 with h3 | h3
        · exact absurd (by simp [shiftDown, h0, h1, h2, h3]) h
        · rcases h3 with h3 | h3 | h3 | h3
          exacts [⟨15, by omega, h3⟩, ⟨11, by omega, h3⟩,
            ⟨7, by omega, h3⟩, ⟨3, by omega, h3⟩]
      · rcases h2 with h2 | h2 | h2 | h2
        exacts [⟨14, by omega, h2⟩, ⟨10, by omega, h2⟩,
          ⟨6, by omega, h2⟩, ⟨2, by omega, h2⟩]
    · rcases h1 with h1 | h1 | h1 | h1
      exacts [⟨13, by omega, h1⟩, ⟨9, by omega, h1⟩,
        ⟨5, by omega, h1⟩, ⟨1, by omega, h1⟩]
  · rcases h0 with h0 | h0 | h0 | h0
    exacts [⟨12, by omega, h0⟩, ⟨8, by omega, h0⟩,
      ⟨4, by omega, h0⟩, ⟨0, by omega, h0⟩]

theorem shiftGrid_zero (m : Move) (g : Grid) (h : shiftGrid m g ≠ g) :
    ∃ i, i < 16 ∧ getTileG (shiftGrid m g) i = 0 := by
  cases m
  · exact shiftUp_zero g h
  · exact shiftDown_zero g h
  · exact shiftLeft_zero g h
  · exact shiftRight_zero g h

theorem emptyIdx_ne_nil (g : Grid) (i : Nat) (hi : i < 16)
    (hz : getTileG g i = 0) : emptyIdx g ≠ [] := by
  apply List.ne_nil_of_mem (a := i)
  simp [emptyIdx, List.mem_filter, List.mem_range, hi, hz]

theorem chooseSpawn_some (g : Grid) (seed : Nat) (h : emptyIdx g ≠ []) :
    ∃ p, chooseSpawn g seed = some p := by
  simp [chooseSpawn, List.isEmpty_iff, h]

theorem canonicalResult_some (prev mv seed : Nat) (m : Move)
    (hdec : decodeMove mv = some m)
    (hlegal : shiftGrid m (toGrid prev) ≠ toGrid prev) :
    ∃ r, canonicalResult prev mv seed = some r := by
  obtain ⟨i, hi, hz⟩ := shiftGrid_zero m (toGrid prev) hlegal
  obtain ⟨⟨i0, e0⟩, hcs⟩ :=
    chooseSpawn_some (shiftGrid m (toGrid prev)) seed (emptyIdx_ne_nil _ i hi hz)
  refine ⟨fromGrid (setTileG (shiftGrid m (toGrid prev)) i0 e0), ?_⟩
  simp [canonicalResult, hdec, if_neg hlegal, hcs]

/-! ## Characterizations of the ledger entry points -/

theorem startGame_ok_iff (keccak : List Nat → Nat) (bn : Nat)
    (s : ContractState) (c g b0 b1 b2 b3 m1 m2 m3 : Nat)
    (r : ContractState × List Event) :
    startGame keccak bn s c g b0 b1 b2 b3 m1 m2 m3 = .ok r ↔
      correctGameId c g = true ∧
      (s.state g).board = 0 ∧
      s.gameHashOf (keccak (encodeBoards b0 b1 b2 b3)) = 0 ∧
      validateStartPosition b0 = true ∧
      validateTransformation b0 m1 b1 (startSeed keccak g 1) = true ∧
      validateTransformation b1 m2 b2 (startSeed keccak g 2) = true ∧
      validateTransformation b2 m3 b3 (startSeed keccak g 3) = true ∧
      r = (startPost keccak s g b0 b1 b2 b3 m3,
        [.NewGame c g b3, .MoveConfirmedEv c g 3 bn]) := by
  unfold startGame
  split_ifs with h1 h2 h3 h4 h5 h6 h7 <;> simp_all <;> tauto

theorem play_ok_iff (keccak : List Nat → Nat) (bn : Nat)
    (s : ContractState) (c g mv rb : Nat) (r : ContractState × List Event) :
    play keccak bn s c g mv rb = .ok r ↔
      correctGameId c g = true ∧
      validateTransformation (s.state g).board mv rb (playSeed keccak s g) = true ∧
      (s.state g).nextMove + 1 < 2 ^ 120 ∧
      r = (playPost s g mv rb,
        [.NewMove c g mv rb, .MoveConfirmedEv c g (s.state g).nextMove bn]) := by
  unfold play
  split_ifs with h1 h2 h3 <;> simp_all <;> tauto

theorem startGameC_eq :
    startGame kZero 17 emptyContractState 1 gameC boardC0 boardC1 boardC2 boardC3 0 2 1 =
      .ok (stateC1, [.NewGame 1 gameC boardC3, .MoveConfirmedEv 1 gameC 3 17]) := rfl

theorem playC_eq :
    play kZero 19 stateC1 1 gameC 3 resultC =
      .ok (stateC2, [.NewMove 1 gameC 3 resultC, .MoveConfirmedEv 1 gameC 4 19]) := rfl

/-! ## The claims -/

/-- Claim C1: soundness of transition validation.  For every board and
every decodable move direction in which a legal shift or merge exists (the
shift-and-merge phase changes the board), there is exactly one result board
that `validateTransformation` accepts under the given seed, and no other
board value passes. -/
theorem claim1_validate_sound (prev seed mv : Nat) (m : Move)
    (hdec : decodeMove mv = some m)
    (hlegal : shiftGrid m (toGrid prev) ≠ toGrid prev) :
    ∃! r : Nat, validateTransformation prev mv r seed = true := by
  obtain ⟨r, hr⟩ := canonicalResult_some prev mv seed m hdec hlegal
  refine ⟨r, ?_, ?_⟩
  · simp [validateTransformation, hr]
  · intro y hy
    simpa [validateTransformation, hr] using hy

/-- Witness for C1: the board with exponent 1 at cells 0 and 1, moved left
under seed 0, has exactly one accepted result. -/
theorem claim1_witness :
    ∃! r : Nat, validateTransformation 257 2 r 0 = true :=
  claim1_validate_sound 257 0 2 Move.left rfl (by decide)

/-- Claim C2: seed consistency.  The seed expression inlined in `play`, the
per-move seed expressions of the `startGame` opening loop, and the public
`calculateSeed` all hash the same byte string: the 32-byte game identifier
followed by the 32-byte move number; hence all three agree on every pair of
identifier and move number. -/
theorem claim2_seed_consistency (keccak : List Nat → Nat) (s : ContractState)
    (gameId n : Nat) :
    playSeed keccak s gameId = calculateSeed keccak gameId (nextMoveView s gameId) ∧
    startSeed keccak gameId n = calculateSeed keccak gameId n ∧
    calculateSeed keccak gameId n = keccak (toBytesBE 32 gameId ++ toBytesBE 32 n) :=
  ⟨rfl, rfl, rfl⟩

/-- Claim C3: replay rejection.  After a successful `startGame` (by any
nonzero caller), every later `startGame` whose four opening boards are
identical fails with GamePlayed and commits nothing, even under a different
game identifier and a different caller — provided the later call is
otherwise well formed (its caller matches its own identifier, and that
identifier has no stored board). -/
theorem claim3_replay_rejection (keccak : List Nat → Nat)
    (bn bn' : Nat) (s0 s1 : ContractState) (evs : List Event)
    (c0 g0 b0 b1 b2 b3 m1 m2 m3 c1 g1 n1 n2 n3 : Nat)
    (hok : startGame keccak bn s0 c0 g0 b0 b1 b2 b3 m1 m2 m3 = .ok (s1, evs))
    (hc0 : c0 ≠ 0)
    (hg : g1 ≠ g0)
    (hfresh : (s0.state g1).board = 0)
    (hid : correctGameId c1 g1 = true) :
    startGame keccak bn' s1 c1 g1 b0 b1 b2 b3 n1 n2 n3 = .error .GamePlayed ∧
    applyResult s1 (startGame keccak bn' s1 c1 g1 b0 b1 b2 b3 n1 n2 n3) =
      (s1, []) := by
  obtain ⟨hid0, hb0, hh0, -, -, -, -, hr⟩ :=
    (startGame_ok_iff keccak bn s0 c0 g0 b0 b1 b2 b3 m1 m2 m3 _).1 hok
  have hs1 : s1 = startPost keccak s0 g0 b0 b1 b2 b3 m3 := by
    have := congrArg Prod.fst hr
    simpa using this
  have hg0 : g0 ≠ 0 := by
    intro h0
    apply hc0
    have hcg : correctGameId c0 g0 = true := hid0
    rw [h0] at hcg
    simpa [correctGameId] using hcg
  have hhash : s1.gameHashOf (keccak (encodeBoards b0 b1 b2 b3)) = g0 := by
    rw [hs1]
    simp [startPost]
  have hstate : (s1.state g1).board = 0 := by
    rw [hs1]
    simpa [startPost, hg] using hfresh
  have herr : startGame keccak bn' s1 c1 g1 b0 b1 b2 b3 n1 n2 n3 =
      .error .GamePlayed := by
    unfold startGame
    rw [if_pos hid, if_pos hstate, if_neg (by rw [hhash]; exact hg0)]
  exact ⟨herr, by rw [herr]; rfl⟩

/-- Witness for C3: the concrete opening of `startGameC_eq` replayed under
game identifier with principal 2 is rejected with GamePlayed. -/
theorem claim3_witness :
    startGame kZero 23 stateC1 2 (2 ^ 97) boardC0 boardC1 boardC2 boardC3 0 2 1 =
      .error .GamePlayed ∧
    applyResult stateC1
      (startGame kZero 23 stateC1 2 (2 ^ 97) boardC0 boardC1 boardC2 boardC3 0 2 1) =
      (stateC1, []) :=
  claim3_replay_rejection kZero 17 23 emptyContractState stateC1
    [.NewGame 1 gameC boardC3, .MoveConfirmedEv 1 gameC 3 17]
    1 gameC boardC0 boardC1 boardC2 boardC3 0 2 1 2 (2 ^ 97) 0 2 1
    startGameC_eq (by decide) (by decide) rfl (by decide)

/-- Claim C4: identity enforcement.  The identity check passes exactly when
the caller equals the principal decoded from the high 160 bits of the game
identifier (whatever the low 96 disambiguator bits are), and a mutating
call whose caller fails the check reverts with GamePlayerInvalid (the
WrongPlayer condition) committing nothing, whatever the rest of the call. -/
theorem claim4_identity (keccak : List Nat → Nat) (bn : Nat)
    (s : ContractState) (c g b0 b1 b2 b3 m1 m2 m3 mv rb : Nat) :
    (correctGameId c g = true ↔ c = g / 2 ^ 96 % 2 ^ 160) ∧
    (correctGameId c g = false →
      startGame keccak bn s c g b0 b1 b2 b3 m1 m2 m3 = .error .GamePlayerInvalid ∧
      play keccak bn s c g mv rb = .error .GamePlayerInvalid ∧
      applyResult s (startGame keccak bn s c g b0 b1 b2 b3 m1 m2 m3) = (s, []) ∧
      applyResult s (play keccak bn s c g mv rb) = (s, [])) := by
  constructor
  · simp [correctGameId]
  · intro hfail
    have hne : ¬ correctGameId c g = true := by simp [hfail]
    have h1 : startGame keccak bn s c g b0 b1 b2 b3 m1 m2 m3 =
        .error .GamePlayerInvalid := by
      unfold startGame
      rw [if_neg hne]
    have h2 : play keccak bn s c g mv rb = .error .GamePlayerInvalid := by
      unfold play
      rw [if_neg hne]
    exact ⟨h1, h2, by rw [h1]; rfl, by rw [h2]; rfl⟩

/-- Witness for C4: caller 5 against the identifier with principal 1 is
rejected by both entry points with no state change. -/
theorem claim4_witness :
    startGame kZero 0 emptyContractState 5 gameC 0 0 0 0 0 0 0 =
      .error .GamePlayerInvalid ∧
    play kZero 0 emptyContractState 5 gameC 0 0 = .error .GamePlayerInvalid ∧
    applyResult emptyContractState
      (startGame kZero 0 emptyContractState 5 gameC 0 0 0 0 0 0 0) =
      (emptyContractState, []) ∧
    applyResult emptyContractState (play kZero 0 emptyContractState 5 gameC 0 0) =
      (emptyContractState, []) :=
  (claim4_identity kZero 0 emptyContractState 5 gameC 0 0 0 0 0 0 0 0 0).2 (by decide)

/-- Claim C5: atomicity on failure.  A call to `startGame` or `play`
reverts exactly when one of its checks fails, and a reverted call leaves
the storage untouched and emits no event. -/
theorem claim5_atomicity (keccak : List Nat → Nat) (bn : Nat)
    (s : ContractState) (c g b0 b1 b2 b3 m1 m2 m3 mv rb : Nat) :
    ((∃ e, startGame keccak bn s c g b0 b1 b2 b3 m1 m2 m3 = .error e) ↔
      ¬ startChecks keccak s c g b0 b1 b2 b3 m1 m2 m3) ∧
    ((∃ e, play keccak bn s c g mv rb = .error e) ↔
      ¬ playChecks keccak s c g mv rb) ∧
    ((∃ e, startGame keccak bn s c g b0 b1 b2 b3 m1 m2 m3 = .error e) →
      applyResult s (startGame keccak bn s c g b0 b1 b2 b3 m1 m2 m3) = (s, [])) ∧
    ((∃ e, play keccak bn s c g mv rb = .error e) →
      applyResult s (play keccak bn s c g mv rb) = (s, [])) := by
  refine ⟨?_, ?_, ?_, ?_⟩
  · unfold startGame startChecks
    split_ifs with h1 h2 h3 h4 h5 h6 h7 <;> simp_all
  · unfold play playChecks
    split_ifs with h1 h2 h3 <;> simp_all
  · rintro ⟨e, he⟩
    rw [he]
    rfl
  · rintro ⟨e, he⟩
    rw [he]
    rfl

/-- Witness for C5: a caller-mismatch `startGame` and a transition-failing
`play` each revert and leave the fresh storage unchanged with no events. -/
theorem claim5_witness :
    applyResult emptyContractState
      (startGame kZero 0 emptyContractState 5 gameC 0 0 0 0 0 0 0) =
      (emptyContractState, []) ∧
    applyResult emptyContractState (play kZero 0 emptyContractState 1 gameC 0 0) =
      (emptyContractState, []) :=
  ⟨(claim5_atomicity kZero 0 emptyContractState 5 gameC 0 0 0 0 0 0 0 0 0).2.2.1
      ⟨.GamePlayerInvalid, rfl⟩,
   (claim5_atomicity kZero 0 emptyContractState 1 gameC 0 0 0 0 0 0 0 0 0).2.2.2
      ⟨.GameBoardInvalid, rfl⟩⟩

/-- Claim C6: monotonic move numbers.  Immediately after a successful
`startGame` the next-move counter reads 4 and the stored board is the
fourth opening board; after a successful `play` the counter is exactly one
more than before and the stored board is the claimed result board. -/
theorem claim6_monotonic (keccak : List Nat → Nat) (bn : Nat)
    (s : ContractState) (c g b0 b1 b2 b3 m1 m2 m3 mv rb : Nat)
    (s1 : ContractState) (evs : List Event)
    (s2 : ContractState) (evs2 : List Event) :
    (startGame keccak bn s c g b0 b1 b2 b3 m1 m2 m3 = .ok (s1, evs) →
      nextMoveView s1 g = 4 ∧ latestBoardView s1 g = b3) ∧
    (play keccak bn s c g mv rb = .ok (s2, evs2) →
      nextMoveView s2 g = nextMoveView s g + 1 ∧ latestBoardView s2 g = rb) := by
  constructor
  · intro hok
    obtain ⟨-, -, -, -, -, -, -, hr⟩ :=
      (startGame_ok_iff keccak bn s c g b0 b1 b2 b3 m1 m2 m3 _).1 hok
    have hs1 : s1 = startPost keccak s g b0 b1 b2 b3 m3 := by
      have := congrArg Prod.fst hr
      simpa using this
    rw [hs1]
    constructor <;> simp [nextMoveView, latestBoardView, startPost]
  · intro hok
    obtain ⟨-, -, -, hr⟩ :=
      (play_ok_iff keccak bn s c g mv rb _).1 hok
    have hs2 : s2 = playPost s g mv rb := by
      have := congrArg Prod.fst hr
      simpa using this
    rw [hs2]
    constructor <;> simp [nextMoveView, latestBoardView, playPost]

/-- Witness for C6: the concrete successful opening leaves the counter at 4
with the fourth board stored, and the concrete successful play advances the
counter from 4 to 5 and stores the claimed result. -/
theorem claim6_witness :
    (nextMoveView stateC1 gameC = 4 ∧ latestBoardView stateC1 gameC = boardC3) ∧
    (nextMoveView stateC2 gameC = nextMoveView stateC1 gameC + 1 ∧
      latestBoardView stateC2 gameC = resultC) :=
  ⟨(claim6_monotonic kZero 17 emptyContractState 1 gameC boardC0 boardC1 boardC2
      boardC3 0 2 1 0 0 stateC1
      [.NewGame 1 gameC boardC3, .MoveConfirmedEv 1 gameC 3 17]
      emptyContractState []).1 startGameC_eq,
   (claim6_monotonic kZero 19 stateC1 1 gameC 0 0 0 0 0 0 0 3 resultC
      emptyContractState [] stateC2
      [.NewMove 1 gameC 3 resultC, .MoveConfirmedEv 1 gameC 4 19]).2 playC_eq⟩

/-- Claim C7: confirmation flags.  Moves 1 to 3 read confirmed immediately
after a successful `startGame`, the validated move number reads confirmed
immediately after a successful `play`, and neither entry point ever clears
a flag that was already set. -/
theorem claim7_confirmation (keccak : List Nat → Nat) (bn : Nat)
    (s : ContractState) (c g b0 b1 b2 b3 m1 m2 m3 mv rb : Nat)
    (s1 : ContractState) (evs : List Event)
    (s2 : ContractState) (evs2 : List Event) :
    (startGame keccak bn s c g b0 b1 b2 b3 m1 m2 m3 = .ok (s1, evs) →
      isMoveConfirmedView s1 g 1 = true ∧
      isMoveConfirmedView s1 g 2 = true ∧
      isMoveConfirmedView s1 g 3 = true ∧
      (∀ g' n', s.moveConfirmed g' n' = true → s1.moveConfirmed g' n' = true)) ∧
    (play keccak bn s c g mv rb = .ok (s2, evs2) →
      isMoveConfirmedView s2 g (nextMoveView s g) = true ∧
      (∀ g' n', s.moveConfirmed g' n' = true → s2.moveConfirmed g' n' = true)) := by
  constructor
  · intro hok
    obtain ⟨-, -, -, -, -, -, -, hr⟩ :=
      (startGame_ok_iff keccak bn s c g b0 b1 b2 b3 m1 m2 m3 _).1 hok
    have hs1 : s1 = startPost keccak s g b0 b1 b2 b3 m3 := by
      have := congrArg Prod.fst hr
      simpa using this
    subst hs1
    refine ⟨by simp [isMoveConfirmedView, startPost],
      by simp [isMoveConfirmedView, startPost],
      by simp [isMoveConfirmedView, startPost], ?_⟩
    intro g' n' hset
    simp only [startPost]
    split <;> simp_all
  · intro hok
    obtain ⟨-, -, -, hr⟩ := (play_ok_iff keccak bn s c g mv rb _).1 hok
    have hs2 : s2 = playPost s g mv rb := by
      have := congrArg Prod.fst hr
      simpa using this
    subst hs2
    refine ⟨by simp [isMoveConfirmedView, nextMoveView, playPost], ?_⟩
    intro g' n' hset
    simp only [playPost]
    split <;> simp_all

/-- Witness for C7: after the concrete opening, flags 1 to 3 are set; after
the concrete play, flag 4 is set; and the play preserved every flag the
opening had set. -/
theorem claim7_witness :
    (isMoveConfirmedView stateC1 gameC 1 = true ∧
     isMoveConfirmedView stateC1 gameC 2 = true ∧
     isMoveConfirmedView stateC1 gameC 3 = true) ∧
    isMoveConfirmedView stateC2 gameC (nextMoveView stateC1 gameC) = true ∧
    stateC2.moveConfirmed gameC 1 = true := by
  have h1 := (claim7_confirmation kZero 17 emptyContractState 1 gameC boardC0
    boardC1 boardC2 boardC3 0 2 1 0 0 stateC1
    [.NewGame 1 gameC boardC3, .MoveConfirmedEv 1 gameC 3 17]
    emptyContractState []).1 startGameC_eq
  have h2 := (claim7_confirmation kZero 19 stateC1 1 gameC 0 0 0 0 0 0 0 3 resultC
    emptyContractState [] stateC2
    [.NewMove 1 gameC 3 resultC, .MoveConfirmedEv 1 gameC 4 19]).2 playC_eq
  exact ⟨⟨h1.1, h1.2.1, h1.2.2.1⟩, h2.1, h2.2 gameC 1 h1.1⟩

/-- Counterexample to claim C8 as stated: in a storage state whose record
for the identifier is not the default (its move counter is 5) but whose
stored board is zero, `startGame` does not fail with GameIdUsed — the code
tests only `state[gameId].board == 0`, treating a zero board as absence,
not an explicit presence check on the identifier. -/
theorem claim8_counterexample :
    ghostState.state gameC ≠ defaultGameState ∧
    startGame kZero 0 ghostState 1 gameC 0 0 0 0 0 0 0 ≠ .error .GameIdUsed := by
  constructor
  · decide
  · have h : startGame kZero 0 ghostState 1 gameC 0 0 0 0 0 0 0 =
        .error .GameBoardInvalid := rfl
    rw [h]
    simp

/-- Claim C8 (amended): when the caller matches the identifier, `startGame`
fails with GameIdUsed exactly when the stored board for the identifier is
nonzero; the presence test is this zero-board check, not an explicit
presence check on the identifier. -/
theorem claim8_gameIdUsed_iff (keccak : List Nat → Nat) (bn : Nat)
    (s : ContractState) (c g b0 b1 b2 b3 m1 m2 m3 : Nat)
    (hid : correctGameId c g = true) :
    startGame keccak bn s c g b0 b1 b2 b3 m1 m2 m3 = .error .GameIdUsed ↔
      (s.state g).board ≠ 0 := by
  unfold startGame
  rw [if_pos hid]
  split_ifs with h2 h3 h4 h5 h6 h7 <;> simp_all

/-- Witness for C8 (amended): the identifier of the concrete started game
has a nonzero stored board, so restarting it fails with GameIdUsed. -/
theorem claim8_witness :
    startGame kZero 0 stateC1 1 gameC 0 0 0 0 0 0 0 = .error .GameIdUsed ↔
      (stateC1.state gameC).board ≠ 0 :=
  claim8_gameIdUsed_iff kZero 0 stateC1 1 gameC 0 0 0 0 0 0 0 (by decide)

/-- Claim C9 (amended): a successful `startGame` emits exactly two events:
the NewGame event with the final opening board, and one MoveConfirmedEv
event for move number 3 carrying the caller, the identifier, and the
current block number — not one confirmation event per opening move. -/
theorem claim9_events (keccak : List Nat → Nat) (bn : Nat)
    (s : ContractState) (c g b0 b1 b2 b3 m1 m2 m3 : Nat)
    (s1 : ContractState) (evs : List Event)
    (hok : startGame keccak bn s c g b0 b1 b2 b3 m1 m2 m3 = .ok (s1, evs)) :
    evs = [Event.NewGame c g b3, Event.MoveConfirmedEv c g 3 bn] := by
  obtain ⟨-, -, -, -, -, -, -, hr⟩ :=
    (startGame_ok_iff keccak bn s c g b0 b1 b2 b3 m1 m2 m3 _).1 hok
  have := congrArg Prod.snd hr
  simpa using this

/-- Witness for C9 (amended): the concrete successful opening emits exactly
the NewGame event and the single move-3 confirmation event. -/
theorem claim9_witness :
    [Event.NewGame 1 gameC boardC3, Event.MoveConfirmedEv 1 gameC 3 17] =
      [Event.NewGame 1 gameC boardC3, Event.MoveConfirmedEv 1 gameC 3 17] :=
  claim9_events kZero 17 emptyContractState 1 gameC boardC0 boardC1 boardC2
    boardC3 0 2 1 stateC1
    [Event.NewGame 1 gameC boardC3, Event.MoveConfirmedEv 1 gameC 3 17]
    startGameC_eq

/-- Counterexample to claim C9 as stated: the concrete successful opening
marks moves 1, 2 and 3 confirmed in storage, yet its event list contains no
confirmation event for move 1 nor for move 2 — only one for move 3 — so
`startGame` does not emit a confirmation event for each move it confirms. -/
theorem claim9_counterexample :
    isOkB (startGame kZero 17 emptyContractState 1 gameC boardC0 boardC1
      boardC2 boardC3 0 2 1) = true ∧
    isMoveConfirmedView
      (applyResult emptyContractState (startGame kZero 17 emptyContractState 1
        gameC boardC0 boardC1 boardC2 boardC3 0 2 1)).1 gameC 1 = true ∧
    isMoveConfirmedView
      (applyResult emptyContractState (startGame kZero 17 emptyContractState 1
        gameC boardC0 boardC1 boardC2 boardC3 0 2 1)).1 gameC 2 = true ∧
    confirmEvCount
      (applyResult emptyContractState (startGame kZero 17 emptyContractState 1
        gameC boardC0 boardC1 boardC2 boardC3 0 2 1)).2 gameC 1 = 0 ∧
    confirmEvCount
      (applyResult emptyContractState (startGame kZero 17 emptyContractState 1
        gameC boardC0 boardC1 boardC2 boardC3 0 2 1)).2 gameC 2 = 0 ∧
    confirmEvCount
      (applyResult emptyContractState (startGame kZero 17 emptyContractState 1
        gameC boardC0 boardC1 boardC2 boardC3 0 2 1)).2 gameC 3 = 1 :=
  ⟨rfl, rfl, rfl, rfl, rfl, rfl⟩

theorem zeroBoard_never_validates (mv rb seed : Nat) :
    validateTransformation 0 mv rb seed = false := by
  unfold validateTransformation canonicalResult
  rcases hd : decodeMove mv with - | m
  · simp
  · have hz : shiftGrid m (toGrid 0) = toGrid 0 := by
      cases m <;> decide
    simp [hz]

/-- Claim C10: `play` performs no existence check.  Called on an identifier
with no started game (its record is the mapping default) by the encoded
principal, `play` reads the default record — board 0, next move 0 — and its
outcome is decided purely by validating the transition from the zero board
under the move-0 seed; since no move on an empty board ever validates, the
call fails with the transition error GameBoardInvalid, never with any
dedicated missing-game error (no such error exists in the contract). -/
theorem claim10_play_fresh (keccak : List Nat → Nat) (bn : Nat)
    (s : ContractState) (c g mv rb : Nat)
    (hid : correctGameId c g = true)
    (hfresh : s.state g = defaultGameState) :
    playSeed keccak s g = calculateSeed keccak g 0 ∧
    validateTransformation (s.state g).board mv rb (playSeed keccak s g) =
      false ∧
    play keccak bn s c g mv rb = .error .GameBoardInvalid := by
  have hseed : playSeed keccak s g = calculateSeed keccak g 0 := by
    simp [playSeed, calculateSeed, encodeGameSeed, hfresh, defaultGameState]
  have hval : validateTransformation (s.state g).board mv rb
      (playSeed keccak s g) = false := by
    rw [hfresh]
    exact zeroBoard_never_validates mv rb _
  refine ⟨hseed, hval, ?_⟩
  unfold play
  rw [if_pos hid, if_neg (by simp [hval])]

/-- Witness for C10: on a fresh storage, the encoded principal's `play`
fails with GameBoardInvalid. -/
theorem claim10_witness :
    play kZero 0 emptyContractState 1 gameC 0 0 = .error .GameBoardInvalid :=
  (claim10_play_fresh kZero 0 emptyContractState 1 gameC 0 0 (by decide) rfl).2.2
